import Mathlib

/-!
# Verification of sshmanager-v2 data model and SSH tunnel controllers

Shallow embedding of `src/models/__init__.py` (Pony ORM entities
`CheckingSupported`, `SSH`, `Port`) and `src/controllers/ssh_controllers.py`
(`connect_ssh`, `verify_ssh`, `kill_proxy_on_port`) in Lean 4, together with
theorems about the behaviour specified for them.

Database tables are modelled as lists of records; timestamps as natural
numbers; SQL `MIN` over a nullable column ignores NULL values, and ordering
a nullable column ascending places NULL rows first, as SQLite does.
-/

namespace SshManager

/-- A row of a `CheckingSupported` table (`src/models/__init__.py`).
`α` is the payload of the concrete subclass (`SSH` or `Port`);
the common columns are `id`, `is_checking` and `last_checked`. -/
structure CheckRec (α : Type) where
  id : Nat
  is_checking : Bool
  last_checked : Option Nat
  payload : α
  deriving Repr, DecidableEq

/-- SQL `MIN(last_checked)` over the whole table: NULLs are ignored,
and the result is NULL exactly when every row is NULL.
This is Pony's `type(self).min(lambda o: o.last_checked)`. -/
def minLastChecked {α : Type} (tbl : List (CheckRec α)) : Option Nat :=
  (tbl.filterMap (fun r => r.last_checked)).min?

/-- `CheckingSupported.need_checking`:
`not self.is_checking and (self.last_checked is None or
 self.last_checked == type(self).min(lambda o: o.last_checked))`. -/
def need_checking {α : Type} (tbl : List (CheckRec α)) (e : CheckRec α) : Bool :=
  !e.is_checking &&
    (e.last_checked.isNone || e.last_checked == minLastChecked tbl)

/-- Ascending SQL order on a nullable column: NULL sorts before any value. -/
def lcLE : Option Nat → Option Nat → Bool
  | none, _ => true
  | some _, none => false
  | some a, some b => a ≤ b

/-- `query.order_by(cls.last_checked).first()`: the first row of `l` whose
`last_checked` is minimal in the NULLs-first ascending order. -/
def selectMin {α : Type} : List (CheckRec α) → Option (CheckRec α)
  | [] => none
  | e :: es =>
    match selectMin es with
    | none => some e
    | some b => if lcLE e.last_checked b.last_checked then some e else some b

/-- `CheckingSupported.begin_checking`: set `is_checking = True` on the row
with the given primary key. -/
def begin_checking {α : Type} (tbl : List (CheckRec α)) (i : Nat) :
    List (CheckRec α) :=
  tbl.map (fun r => if r.id = i then { r with is_checking := true } else r)

/-- `CheckingSupported.get_need_checking(begin=True)`: select the rows
satisfying `need_checking`, order by `last_checked`, take the first;
if one is found and `begin` is true, run `begin_checking` on it.
Returns the selected row (if any) and the table after the call. -/
def get_need_checking {α : Type} (tbl : List (CheckRec α))
    (begin_ : Bool := true) : Option (CheckRec α) × List (CheckRec α) :=
  match selectMin (tbl.filter (need_checking tbl)) with
  | none => (none, tbl)
  | some e => (some e, if begin_ then begin_checking tbl e.id else tbl)

/-- Primary-key lookup `cls[i]` as an option: `tbl.find? (·.id = i)`. -/
def getById {α : Type} (tbl : List (CheckRec α)) (i : Nat) :
    Option (CheckRec α) :=
  tbl.find? (fun r => r.id = i)

/-- `CheckingSupported.end_checking(obj, **kwargs)`: look the row up by
primary key; on `ObjectNotFound` return with no change; otherwise apply the
caller-supplied updates `upd` (the kwargs), then set `is_checking = False`
and `last_checked = datetime.now()` (the parameter `now`). -/
def end_checking {α : Type} (tbl : List (CheckRec α)) (objId : Nat)
    (upd : CheckRec α → CheckRec α) (now : Nat) : List (CheckRec α) :=
  match getById tbl objId with
  | none => tbl
  | some _ =>
    tbl.map (fun r =>
      if r.id = objId then
        { upd r with is_checking := false, last_checked := some now }
      else r)

/-! ## The `SSH` and `Port` entities -/

/-- A row of the `SSH` table: `ip`, `username`, `password`, `is_live`,
the optional back-reference `port` to the `Port` using it, plus the
inherited `CheckingSupported` columns. Rows reference each other by id. -/
structure SSHRec where
  id : Nat
  is_checking : Bool
  last_checked : Option Nat
  ip : String
  username : String
  password : String
  is_live : Bool
  port : Option Nat
  deriving Repr, DecidableEq

/-- A row of the `Port` table: `port_number`, the optional `ssh` assignment,
`external_ip`, the `used_ssh_list` history (SSH ids), `time_connected`,
plus the inherited `CheckingSupported` columns. -/
structure PortRec where
  id : Nat
  is_checking : Bool
  last_checked : Option Nat
  port_number : Nat
  ssh : Option Nat
  external_ip : String
  used_ssh_list : List Nat
  time_connected : Option Nat
  deriving Repr, DecidableEq

/-- `SSH.is_usable`: `self.is_live and self.port is None`. -/
def SSHRec.is_usable (s : SSHRec) : Bool :=
  s.is_live && s.port.isNone

/-- `SSH.get_ssh_for_port(port, unique=True)`: select the usable rows,
filtered by `s not in port.used_ssh_list` when `unique`, and take the
first. -/
def get_ssh_for_port (tbl : List SSHRec) (p : PortRec)
    (unique : Bool := true) : Option SSHRec :=
  ((tbl.filter SSHRec.is_usable).filter
    (fun s => !unique || !p.used_ssh_list.contains s.id)).head?

/-- `Port.need_ssh`: `self.ssh is None`. -/
def PortRec.need_ssh (p : PortRec) : Bool :=
  p.ssh.isNone

/-- `Port.get_need_reset(time_expired)`: all rows with
`p.ssh is not None and p.time_connected < time_expired`.  Under SQL NULL
semantics a NULL `time_connected` fails the comparison, so such a row is
not selected. -/
def get_need_reset (tbl : List PortRec) (time_expired : Nat) : List PortRec :=
  tbl.filter (fun p =>
    p.ssh.isSome &&
      (match p.time_connected with
       | some t => decide (t < time_expired)
       | none => false))

/-- `Port.reset_status`: the `CheckingSupported` part clears `is_checking`
and `last_checked`; the `Port` override additionally clears `external_ip`
(to the empty string), `ssh`, `time_connected` and `used_ssh_list`.
The row itself is kept. -/
def PortRec.reset_status (p : PortRec) : PortRec :=
  { p with is_checking := false, last_checked := none,
           external_ip := "", ssh := none, time_connected := none,
           used_ssh_list := [] }

/-- `reset_status` applied to the row with primary key `i` in a `Port`
table, in place. -/
def resetStatusById (tbl : List PortRec) (i : Nat) : List PortRec :=
  tbl.map (fun r => if r.id = i then r.reset_status else r)

/-! ## The tunnel controllers (`src/controllers/ssh_controllers.py`) -/

/-- The exception classes the controller code can raise.  The source
defines exactly one SSH-related exception class, `SSHError`; both tunnel
establishment failures in `connect_ssh` and the no-proxy-found failure in
`kill_proxy_on_port` are instances of it. -/
inductive PyExcClass
  | SSHError
  deriving Repr, DecidableEq

/-- A raised exception: its class and its message. -/
structure PyExc where
  cls : PyExcClass
  msg : String
  deriving Repr, DecidableEq

/-- `ProxyInfo`: local port of the forwarded SOCKS5 proxy and the
underlying `asyncssh` connection (identified by a connection id). -/
structure ProxyInfo where
  port : Nat
  connId : Nat
  deriving Repr, DecidableEq

/-- The module-level mutable state of `ssh_controllers`:
`proxies` (the active-tunnel registry) and `ssh_port` (the dict mapping
`f"{host}|{username}|{password}"` to the list holding the winning remote
port, modelled as a finite map).  `closed` records the connection ids on
which `utils.kill_ssh_connection` has been called. -/
structure TunnelSt where
  proxies : List ProxyInfo
  cache : String → Option (List Nat)
  closed : List Nat

/-- The cache key `f"{host}|{username}|{password}"`. -/
def cacheKey (host username password : String) : String :=
  host ++ "|" ++ username ++ "|" ++ password

/-- `ssh_port[k] = v`: overwrite the binding of `k`. -/
def cacheSet (c : String → Option (List Nat)) (k : String) (v : List Nat) :
    String → Option (List Nat) :=
  fun q => if q = k then some v else c q

/-- `ssh_port.get(key) or config_ports or [22]`: the cached port list for
this exact `(host, username, password)` key if present and non-empty (the
cache only ever stores non-empty singletons), else the ports parsed from
the config's `ssh_ports` entry if non-empty, else `[22]`. -/
def candidatePorts (cache : String → Option (List Nat)) (key : String)
    (configPorts : List Nat) : List Nat :=
  match cache key with
  | some ps => if ps.isEmpty then (if configPorts.isEmpty then [22] else configPorts) else ps
  | none => if configPorts.isEmpty then [22] else configPorts

/-- `kill_proxy_on_port(port)`: scan `proxies` for the first entry with
this local port; if found, remove it from the registry and close its
connection; otherwise raise `SSHError(f"No proxy on port {port} found.")`. -/
def kill_proxy_on_port (st : TunnelSt) (port : Nat) :
    Except PyExc TunnelSt :=
  match st.proxies.find? (fun p => p.port = port) with
  | some p =>
    .ok { st with
          proxies := st.proxies.erase p,
          closed := st.closed ++ [p.connId] }
  | none =>
    .error ⟨.SSHError, "No proxy on port " ++ toString port ++ " found."⟩

/-- Modelled from the spec: the outcome of the network interactions of
`connect_ssh`, whose helpers `utils.get_first_success`,
`utils.kill_ssh_connection` and `utils.get_proxy_ip` are not part of the
repository sources.  Concurrent connection attempts over the candidate
ports either all fail (`connectFail`), or the first responder — the
candidate at position `idx` of the candidate list — yields connection
`connId`; after that the SOCKS5 forward may fail (`forwardFail`), the
external-IP verification round-trip through the forwarded proxy may fail
(`verifyFail`), or everything succeeds (`success`). -/
inductive NetOutcome
  | connectFail (cause : String)
  | forwardFail (idx : Nat) (connId : Nat) (cause : String)
  | verifyFail (idx : Nat) (connId : Nat)
  | success (idx : Nat) (connId : Nat)
  deriving Repr, DecidableEq

/-- The candidate remote port the first responder answered on: the entry of
the candidate list at `idx` (taken cyclically; the list is never empty
thanks to the `[22]` fallback). -/
def winnerPort (ports : List Nat) (idx : Nat) : Nat :=
  ports.getD (idx % ports.length) 22

/-- The `try: await kill_proxy_on_port(port) except SSHError: pass` step at
the top of `connect_ssh`: best-effort removal of a stale registry entry on
the chosen local port; an `SSHError` is swallowed and the state kept. -/
def killBestEffort (st : TunnelSt) (port : Nat) : TunnelSt :=
  match kill_proxy_on_port st port with
  | .ok s => s
  | .error _ => st

/-- `connect_ssh(host, username, password, port=None)`.
`port?` is the optional local port argument; `freePort` is the port
`utils.get_free_port()` would hand out; `configPorts` are the integers
parsed from the config's `ssh_ports`; `net` is the outcome of the network
interactions.  Steps, as in the source: pick the local port; best-effort
`kill_proxy_on_port` on it (an `SSHError` is swallowed); build the
candidate remote-port list; connect (first success wins); cache the winning
remote port under the `(host, username, password)` key; forward SOCKS5;
verify through the forwarded proxy, closing the connection and raising
`SSHError` if the verification fails; append the `ProxyInfo` to `proxies`
and return it.  Connection/forward failures are re-raised as `SSHError`
wrapping the cause. -/
def connect_ssh (st : TunnelSt) (host username password : String)
    (port? : Option Nat) (freePort : Nat) (configPorts : List Nat)
    (net : NetOutcome) : Except PyExc ProxyInfo × TunnelSt :=
  let port := port?.getD freePort
  let st1 := killBestEffort st port
  let key := cacheKey host username password
  let ports := candidatePorts st1.cache key configPorts
  match net with
  | .connectFail cause =>
    (.error ⟨.SSHError, cause⟩, st1)
  | .forwardFail idx _ cause =>
    let st2 := { st1 with cache := cacheSet st1.cache key [winnerPort ports idx] }
    (.error ⟨.SSHError, cause⟩, st2)
  | .verifyFail idx connId =>
    let st2 := { st1 with cache := cacheSet st1.cache key [winnerPort ports idx] }
    let st3 := { st2 with closed := st2.closed ++ [connId] }
    (.error ⟨.SSHError, "Cannot connect to forwarded proxy."⟩, st3)
  | .success idx connId =>
    let st2 := { st1 with cache := cacheSet st1.cache key [winnerPort ports idx] }
    let pi : ProxyInfo := ⟨port, connId⟩
    (.ok pi, { st2 with proxies := st2.proxies ++ [pi] })

/-- `verify_ssh(host, username, password)`: run `connect_ssh` with no local
port argument; on success close the returned connection and return `True`;
on `SSHError` return `False`. -/
def verify_ssh (st : TunnelSt) (host username password : String)
    (freePort : Nat) (configPorts : List Nat) (net : NetOutcome) :
    Bool × TunnelSt :=
  match connect_ssh st host username password none freePort configPorts net with
  | (.ok pi, st') => (true, { st' with closed := st'.closed ++ [pi.connId] })
  | (.error _, st') => (false, st')

/-! ## Helper lemmas -/

theorem mem_of_head?_eq_some {α : Type} {l : List α} {a : α}
    (h : l.head? = some a) : a ∈ l := by
  cases l with
  | nil => simp at h
  | cons x xs =>
    simp only [List.head?_cons, Option.some.injEq] at h
    exact h ▸ List.mem_cons_self x xs

theorem head?_ne_none_of_mem {α : Type} {l : List α} {a : α}
    (h : a ∈ l) : l.head? ≠ none := by
  cases l with
  | nil => cases h
  | cons x xs => simp

theorem lcLE_refl (a : Option Nat) : lcLE a a = true := by
  cases a
  · rfl
  · simp [lcLE]

theorem lcLE_total (a b : Option Nat) : lcLE a b = true ∨ lcLE b a = true := by
  rcases a with _ | a
  · left; rfl
  · rcases b with _ | b
    · right; rfl
    · rw [lcLE, lcLE]
      simp only [decide_eq_true_eq]
      omega

theorem lcLE_trans {a b c : Option Nat} (h1 : lcLE a b = true)
    (h2 : lcLE b c = true) : lcLE a c = true := by
  rcases a with _ | a
  · rfl
  · rcases b with _ | b
    · cases h1
    · rcases c with _ | c
      · cases h2
      · rw [lcLE] at h1 h2 ⊢
        simp only [decide_eq_true_eq] at h1 h2 ⊢
        omega

theorem selectMin_eq_none {α : Type} (l : List (CheckRec α)) :
    selectMin l = none ↔ l = [] := by
  cases l with
  | nil => simp [selectMin]
  | cons x xs =>
    simp only [List.cons_ne_nil, iff_false]
    cases h : selectMin xs with
    | none => simp [selectMin, h]
    | some b =>
      by_cases hle : lcLE x.last_checked b.last_checked = true
      · simp [selectMin, h, hle]
      · simp [selectMin, h, hle]

theorem selectMin_mem {α : Type} :
    ∀ (l : List (CheckRec α)) (e : CheckRec α),
      selectMin l = some e → e ∈ l := by
  intro l
  induction l with
  | nil => intro e h; rw [selectMin] at h; cases h
  | cons x xs ih =>
    intro e h
    cases hx : selectMin xs with
    | none =>
      simp only [selectMin, hx] at h
      rw [← Option.some.inj h]
      exact List.mem_cons_self x xs
    | some b =>
      simp only [selectMin, hx] at h
      split at h
      · rw [← Option.some.inj h]
        exact List.mem_cons_self x xs
      · rw [← Option.some.inj h]
        exact List.mem_cons_of_mem x (ih b hx)

theorem selectMin_le {α : Type} :
    ∀ (l : List (CheckRec α)) (e : CheckRec α),
      selectMin l = some e →
        ∀ x ∈ l, lcLE e.last_checked x.last_checked = true := by
  intro l
  induction l with
  | nil => intro e h; rw [selectMin] at h; cases h
  | cons a as ih =>
    intro e h
    cases ha : selectMin as with
    | none =>
      simp only [selectMin, ha] at h
      rw [← Option.some.inj h]
      intro x hx
      rcases List.mem_cons.mp hx with hx | hx
      · rw [hx]; exact lcLE_refl _
      · rw [(selectMin_eq_none as).mp ha] at hx
        cases hx
    | some b =>
      simp only [selectMin, ha] at h
      split at h
      next hle =>
        rw [← Option.some.inj h]
        intro x hx
        rcases List.mem_cons.mp hx with hx | hx
        · rw [hx]; exact lcLE_refl _
        · exact lcLE_trans hle (ih b ha x hx)
      next hle =>
        rw [← Option.some.inj h]
        intro x hx
        rcases List.mem_cons.mp hx with hx | hx
        · rw [hx]
          rcases lcLE_total a.last_checked b.last_checked with h1 | h1
          · exact absurd h1 hle
          · exact h1
        · exact ih b ha x hx

/-! ## C1: selecting the next entity to check -/

/-- C1, counterexample to the claim as stated: in a table whose globally
stalest entity (`last_checked = 1`) is in flight, the only not-checking
entity (`last_checked = 2`) has the minimum `last_checked` among the
not-currently-checking entities, yet `get_need_checking` returns `None`:
selection is restricted to holders of the global minimum (in-flight rows
included), not to the minimum among not-checking rows. -/
theorem get_need_checking_counterexample :
    ((get_need_checking
        ([⟨0, true, some 1, ()⟩, ⟨1, false, some 2, ()⟩] :
          List (CheckRec Unit)) true).1 = none) ∧
    ((⟨1, false, some 2, ()⟩ : CheckRec Unit) ∈
        ([⟨0, true, some 1, ()⟩, ⟨1, false, some 2, ()⟩] :
          List (CheckRec Unit))) ∧
    ((⟨1, false, some 2, ()⟩ : CheckRec Unit).is_checking = false) := by
  decide

/-- C1, amended: `get_need_checking(begin=True)` returns an entity
satisfying `need_checking` (not in flight, and `last_checked` null or equal
to the minimum over all entities of the kind, in-flight included) that is
stalest — minimal `last_checked`, nulls first — among all entities
satisfying `need_checking`; it returns `None` (leaving the table unchanged)
exactly when no entity satisfies `need_checking`; a returned entity is
marked `is_checking = true`, so afterwards no row with its id satisfies
`need_checking`. -/
theorem get_need_checking_spec {α : Type} (tbl : List (CheckRec α)) :
    (∀ e, (get_need_checking tbl true).1 = some e →
        e ∈ tbl ∧ need_checking tbl e = true ∧
        (∀ x ∈ tbl, need_checking tbl x = true →
            lcLE e.last_checked x.last_checked = true) ∧
        (get_need_checking tbl true).2 = begin_checking tbl e.id ∧
        (∀ r ∈ (get_need_checking tbl true).2, r.id = e.id →
            need_checking (get_need_checking tbl true).2 r = false)) ∧
    ((get_need_checking tbl true).1 = none →
        (get_need_checking tbl true).2 = tbl ∧
        ∀ x ∈ tbl, need_checking tbl x = false) := by
  constructor
  · intro e he
    have hsel : selectMin (tbl.filter (need_checking tbl)) = some e := by
      rw [get_need_checking] at he
      cases hs : selectMin (tbl.filter (need_checking tbl)) with
      | none => rw [hs] at he; exact he
      | some e0 => rw [hs] at he; exact he
    have hmem := selectMin_mem _ e hsel
    rw [List.mem_filter] at hmem
    have h2 : (get_need_checking tbl true).2 = begin_checking tbl e.id := by
      simp [get_need_checking, hsel]
    refine ⟨hmem.1, hmem.2, ?_, h2, ?_⟩
    · intro x hx hnx
      exact selectMin_le _ e hsel x (List.mem_filter.mpr ⟨hx, hnx⟩)
    · intro r hr hid
      rw [h2] at hr
      have hrc : r.is_checking = true := by
        rcases List.mem_map.mp hr with ⟨o, ho, rfl⟩
        by_cases h : o.id = e.id
        · simp [h]
        · rw [if_neg h] at hid ⊢
          exact absurd hid h
      simp [need_checking, hrc]
  · intro h
    have hsel : selectMin (tbl.filter (need_checking tbl)) = none := by
      rw [get_need_checking] at h
      cases hs : selectMin (tbl.filter (need_checking tbl)) with
      | none => rfl
      | some e0 => rw [hs] at h; simp at h
    have hnil := (selectMin_eq_none _).mp hsel
    constructor
    · simp [get_need_checking, hsel]
    · intro x hx
      by_contra hne
      have hmemf : x ∈ tbl.filter (need_checking tbl) :=
        List.mem_filter.mpr ⟨hx, by simpa using hne⟩
      rw [hnil] at hmemf
      cases hmemf

/-- Witness for C1's amended claim: in a two-entity table the stalest
not-in-flight entity is returned and the table afterwards marks it as
checking. -/
theorem get_need_checking_spec_witness :
    ((⟨0, false, some 3, ()⟩ : CheckRec Unit) ∈
        ([⟨0, false, some 3, ()⟩, ⟨1, false, some 5, ()⟩] :
          List (CheckRec Unit))) ∧
    (need_checking
        ([⟨0, false, some 3, ()⟩, ⟨1, false, some 5, ()⟩] :
          List (CheckRec Unit)) ⟨0, false, some 3, ()⟩ = true) ∧
    ((get_need_checking
        ([⟨0, false, some 3, ()⟩, ⟨1, false, some 5, ()⟩] :
          List (CheckRec Unit)) true).2 =
      begin_checking
        ([⟨0, false, some 3, ()⟩, ⟨1, false, some 5, ()⟩] :
          List (CheckRec Unit)) 0) := by
  have h := (get_need_checking_spec
      ([⟨0, false, some 3, ()⟩, ⟨1, false, some 5, ()⟩] :
        List (CheckRec Unit))).1 ⟨0, false, some 3, ()⟩ (by decide)
  exact ⟨h.1, h.2.1, h.2.2.2.1⟩

/-! ## C2: the `need_checking` invariant -/

/-- C2: for every `CheckingSupported` entity `e`, `need_checking` holds iff
`e.is_checking` is false and (`e.last_checked` is null or `e.last_checked`
equals the minimum `last_checked` over all entities of `e`'s kind,
entities currently in flight included — `minLastChecked` ranges over the
whole table without filtering on `is_checking`). -/
theorem need_checking_iff {α : Type} (tbl : List (CheckRec α))
    (e : CheckRec α) :
    need_checking tbl e = true ↔
      e.is_checking = false ∧
        (e.last_checked = none ∨ e.last_checked = minLastChecked tbl) := by
  simp [need_checking, Option.isNone_iff_eq_none, Bool.not_eq_true']

/-! ## C3: credential selection for a port -/

/-- C3: `get_ssh_for_port(p, unique)` never returns a credential that is
not live or that is assigned to some port; with `unique = true` it never
returns a credential in `p`'s own `used_ssh_list`; and whenever a usable
credential outside `p`'s own history exists at all, the selection does not
come back empty — so membership in another port's history never excludes a
credential. -/
theorem get_ssh_for_port_spec (tbl : List SSHRec) (p : PortRec)
    (unique : Bool) :
    (∀ s, get_ssh_for_port tbl p unique = some s →
        s.is_live = true ∧ s.port = none ∧
          (unique = true → s.id ∉ p.used_ssh_list)) ∧
    ((∃ s ∈ tbl, s.is_usable = true ∧ s.id ∉ p.used_ssh_list) →
        get_ssh_for_port tbl p unique ≠ none) := by
  constructor
  · intro s hs
    have hmem := mem_of_head?_eq_some hs
    rw [List.mem_filter] at hmem
    obtain ⟨hmem1, hcond⟩ := hmem
    rw [List.mem_filter] at hmem1
    obtain ⟨-, husable⟩ := hmem1
    simp only [SSHRec.is_usable, Bool.and_eq_true,
      Option.isNone_iff_eq_none] at husable
    refine ⟨husable.1, husable.2, ?_⟩
    intro hu hin
    subst hu
    simp only [Bool.not_true, Bool.false_or, Bool.not_eq_true',
      List.contains, List.elem_eq_mem, decide_eq_false_iff_not] at hcond
    exact hcond hin
  · rintro ⟨s, hmem, husable, hnotused⟩
    apply head?_ne_none_of_mem (a := s)
    rw [List.mem_filter]
    refine ⟨List.mem_filter.mpr ⟨hmem, husable⟩, ?_⟩
    cases unique <;> simp [List.contains, List.elem_eq_mem, hnotused]

/-- Witness for C3 at a concrete table: one live, unassigned credential not
in the port's history is selected. -/
theorem get_ssh_for_port_spec_witness :
    get_ssh_for_port
      [⟨5, false, none, "1.2.3.4", "root", "pw", true, none⟩]
      ⟨0, false, none, 8080, none, "", [9], none⟩ true ≠ none :=
  (get_ssh_for_port_spec
      [⟨5, false, none, "1.2.3.4", "root", "pw", true, none⟩]
      ⟨0, false, none, 8080, none, "", [9], none⟩ true).2
    ⟨⟨5, false, none, "1.2.3.4", "root", "pw", true, none⟩,
      by decide, by decide, by decide⟩

/-! ## C8: ports due for rotation -/

/-- C8: `get_need_reset(time_expired)` returns exactly the ports that have
an assigned SSH credential and whose `time_connected` is strictly older
than the threshold; a port with no assignment, or with no or a recent
`time_connected`, is not returned. -/
theorem get_need_reset_spec (tbl : List PortRec) (texp : Nat) (p : PortRec) :
    p ∈ get_need_reset tbl texp ↔
      p ∈ tbl ∧ p.ssh ≠ none ∧
        ∃ t, p.time_connected = some t ∧ t < texp := by
  simp only [get_need_reset, List.mem_filter, Bool.and_eq_true]
  constructor
  · rintro ⟨hmem, hssh, hlt⟩
    refine ⟨hmem, by simpa [Option.isSome_iff_ne_none] using hssh, ?_⟩
    cases h : p.time_connected with
    | none => rw [h] at hlt; cases hlt
    | some t =>
      rw [h] at hlt
      exact ⟨t, rfl, by simpa using hlt⟩
  · rintro ⟨hmem, hssh, t, ht, hlt⟩
    refine ⟨hmem, by simpa [Option.isSome_iff_ne_none] using hssh, ?_⟩
    rw [ht]
    simpa using hlt

/-! ## C9: resetting a port to the pristine state -/

/-- C9: after `Port.reset_status` the port has no assigned credential
(`need_ssh`), an empty `used_ssh_list`, a cleared external IP, null
`time_connected` and `last_checked`, and `is_checking` false; applying
`reset_status` again changes nothing (idempotence); and resetting a row in
place keeps the record in the table (same table length, reset row
present). -/
theorem port_reset_status_spec (tbl : List PortRec) (p : PortRec)
    (hmem : p ∈ tbl) :
    p.reset_status.need_ssh = true ∧
    p.reset_status.used_ssh_list = [] ∧
    p.reset_status.external_ip = "" ∧
    p.reset_status.time_connected = none ∧
    p.reset_status.last_checked = none ∧
    p.reset_status.is_checking = false ∧
    p.reset_status.reset_status = p.reset_status ∧
    (resetStatusById tbl p.id).length = tbl.length ∧
    p.reset_status ∈ resetStatusById tbl p.id := by
  refine ⟨rfl, rfl, rfl, rfl, rfl, rfl, rfl, List.length_map tbl _, ?_⟩
  rw [resetStatusById, List.mem_map]
  exact ⟨p, hmem, by simp⟩

/-- Witness for C9 at a concrete port with a live assignment: the reset
port needs a credential, has empty history, and stays in the table. -/
theorem port_reset_status_spec_witness :
    (⟨1, true, some 10, 8080, some 3, "9.9.9.9", [3, 4], some 7⟩
        : PortRec).reset_status.need_ssh = true ∧
    (⟨1, true, some 10, 8080, some 3, "9.9.9.9", [3, 4], some 7⟩
        : PortRec).reset_status.used_ssh_list = [] ∧
    (resetStatusById
        [⟨1, true, some 10, 8080, some 3, "9.9.9.9", [3, 4], some 7⟩]
        1).length = 1 := by
  have h := port_reset_status_spec
    [⟨1, true, some 10, 8080, some 3, "9.9.9.9", [3, 4], some 7⟩]
    ⟨1, true, some 10, 8080, some 3, "9.9.9.9", [3, 4], some 7⟩
    (List.mem_singleton.mpr rfl)
  exact ⟨h.1, h.2.1, h.2.2.2.2.2.2.2.1⟩

/-! ## C6: completing a check -/

/-- C6: `end_checking(obj, **kwargs)` leaves the table untouched when the
entity no longer exists (silent drop, no exception); every other row is
kept as it was; and the row with the entity's id becomes the row with the
caller-supplied updates applied, `is_checking` cleared, and `last_checked`
stamped with the current time. -/
theorem end_checking_spec {α : Type} (tbl : List (CheckRec α)) (objId : Nat)
    (upd : CheckRec α → CheckRec α) (now : Nat) :
    (getById tbl objId = none → end_checking tbl objId upd now = tbl) ∧
    (∀ r ∈ tbl, r.id ≠ objId → r ∈ end_checking tbl objId upd now) ∧
    (∀ r ∈ tbl, r.id = objId →
        { upd r with is_checking := false, last_checked := some now }
          ∈ end_checking tbl objId upd now) := by
  refine ⟨fun h => by simp [end_checking, h], ?_, ?_⟩
  · intro r hr hne
    rw [end_checking]
    cases h : getById tbl objId with
    | none => exact hr
    | some o =>
      exact List.mem_map.mpr ⟨r, hr, by simp [hne]⟩
  · intro r hr hid
    have hsome : (getById tbl objId).isSome := by
      rw [getById, List.find?_isSome]
      exact ⟨r, hr, by simp [hid]⟩
    rw [end_checking]
    cases h : getById tbl objId with
    | none => rw [h] at hsome; cases hsome
    | some o =>
      exact List.mem_map.mpr ⟨r, hr, by simp [hid]⟩

/-- Witness for C6: completing a check on an existing entity produces the
updated, un-flagged, freshly stamped row. -/
theorem end_checking_spec_witness :
    (⟨0, false, some 9, ()⟩ : CheckRec Unit) ∈
      end_checking [(⟨0, true, some 5, ()⟩ : CheckRec Unit)] 0
        (fun r => r) 9 :=
  (end_checking_spec [(⟨0, true, some 5, ()⟩ : CheckRec Unit)] 0
      (fun r => r) 9).2.2
    ⟨0, true, some 5, ()⟩ (List.mem_singleton.mpr rfl) rfl

/-! ## C7: tearing a tunnel down by local port -/

/-- C7, counterexample to the claim as stated: the no-entry failure of
`kill_proxy_on_port` is raised with the very same exception class
(`SSHError`) that `connect_ssh` uses for tunnel-establishment failures —
the code has no distinct not-found error type. -/
theorem kill_proxy_on_port_error_class_counterexample :
    (kill_proxy_on_port ⟨[], fun _ => none, []⟩ 5000 =
      .error ⟨.SSHError, "No proxy on port 5000 found."⟩) ∧
    ((connect_ssh ⟨[], fun _ => none, []⟩ "h" "u" "p" (some 1080) 0 []
        (.verifyFail 0 7)).1 =
      .error ⟨.SSHError, "Cannot connect to forwarded proxy."⟩) ∧
    (PyExc.mk .SSHError "No proxy on port 5000 found.").cls =
      (PyExc.mk .SSHError "Cannot connect to forwarded proxy.").cls := by
  refine ⟨?_, rfl, rfl⟩
  rw [kill_proxy_on_port]
  rfl

/-- C7, amended: `kill_proxy_on_port(local_port)` removes the first
registry entry with that local port and closes its connection; when no
entry exists it raises `SSHError` — the same single exception class used
for tunnel-establishment failures, not a distinct not-found type. -/
theorem kill_proxy_on_port_spec (st : TunnelSt) (port : Nat) :
    (∀ p, st.proxies.find? (fun q => q.port = port) = some p →
        kill_proxy_on_port st port =
          .ok { st with proxies := st.proxies.erase p,
                        closed := st.closed ++ [p.connId] }) ∧
    (st.proxies.find? (fun q => q.port = port) = none →
        ∃ e, kill_proxy_on_port st port = .error e ∧
          e.cls = PyExcClass.SSHError) := by
  constructor
  · intro p hp
    rw [kill_proxy_on_port, hp]
  · intro h
    rw [kill_proxy_on_port, h]
    exact ⟨_, rfl, rfl⟩

/-- Witness for C7's amended claim: with one tunnel registered on port
7000, tearing down port 7000 removes it and closes its connection, and
tearing down port 5001 raises an `SSHError`. -/
theorem kill_proxy_on_port_spec_witness :
    (kill_proxy_on_port ⟨[⟨7000, 3⟩], fun _ => none, []⟩ 7000 =
      .ok ⟨[], fun _ => none, [3]⟩) ∧
    (∃ e, kill_proxy_on_port ⟨[⟨7000, 3⟩], fun _ => none, []⟩ 5001 = .error e ∧
      e.cls = PyExcClass.SSHError) :=
  ⟨(kill_proxy_on_port_spec ⟨[⟨7000, 3⟩], fun _ => none, []⟩ 7000).1 ⟨7000, 3⟩
      (by decide),
   (kill_proxy_on_port_spec ⟨[⟨7000, 3⟩], fun _ => none, []⟩ 5001).2 (by decide)⟩

/-! ## Helper lemmas about the tunnel state -/

theorem killBestEffort_cache (st : TunnelSt) (port : Nat) :
    (killBestEffort st port).cache = st.cache := by
  rw [killBestEffort, kill_proxy_on_port]
  cases st.proxies.find? (fun q => q.port = port)
  · rfl
  · rfl

theorem killBestEffort_proxies_sublist (st : TunnelSt) (port : Nat) :
    (killBestEffort st port).proxies.Sublist st.proxies := by
  rw [killBestEffort, kill_proxy_on_port]
  cases h : st.proxies.find? (fun q => q.port = port) with
  | none => exact List.Sublist.refl _
  | some p => exact List.erase_sublist p st.proxies

theorem cacheSet_self (c : String → Option (List Nat)) (k : String)
    (v : List Nat) : cacheSet c k v k = some v := by
  simp [cacheSet]

theorem candidatePorts_ne_nil (cache : String → Option (List Nat))
    (key : String) (configPorts : List Nat) :
    candidatePorts cache key configPorts ≠ [] := by
  rw [candidatePorts]
  cases h : cache key with
  | none =>
    by_cases hc : configPorts.isEmpty
    · simp [hc]
    · simpa [hc] using (by simpa using hc)
  | some ps =>
    by_cases hp : ps.isEmpty
    · by_cases hc : configPorts.isEmpty
      · simp [hp, hc]
      · simpa [hp, hc] using (by simpa using hc)
    · simpa [hp] using (by simpa using hp)

theorem winnerPort_mem {ports : List Nat} (idx : Nat) (h : ports ≠ []) :
    winnerPort ports idx ∈ ports := by
  rw [winnerPort]
  have hlen : 0 < ports.length := List.length_pos.mpr h
  have hlt : idx % ports.length < ports.length := Nat.mod_lt idx hlen
  rw [List.getD_eq_getElem?_getD, List.getElem?_eq_getElem hlt]
  exact List.getElem_mem hlt

/-! ## C4: tunnel establishment, verification, and the registry -/

/-- C4: `connect_ssh` returns `ok` exactly when connection, SOCKS5
forwarding, and the external-IP verification round-trip all succeeded, and
then the returned `ProxyInfo` is appended to the active-tunnel registry;
when the verification round-trip fails, the SSH connection is closed, the
call fails with the tunnel error class `SSHError` (whose message wraps the
cause), and the registry gains no new entry (it is a sublist of the
registry at entry). -/
theorem connect_ssh_spec (st : TunnelSt) (host username password : String)
    (port? : Option Nat) (freePort : Nat) (configPorts : List Nat)
    (net : NetOutcome) :
    (∀ pi,
      (connect_ssh st host username password port? freePort configPorts
          net).1 = .ok pi →
        (∃ i c, net = .success i c ∧ pi.connId = c) ∧
        (connect_ssh st host username password port? freePort configPorts
            net).2.proxies =
          (killBestEffort st (port?.getD freePort)).proxies ++ [pi]) ∧
    (∀ i c, net = .verifyFail i c →
        (∃ e, (connect_ssh st host username password port? freePort
            configPorts net).1 = .error e ∧
          e.cls = PyExcClass.SSHError ∧
          e.msg = "Cannot connect to forwarded proxy.") ∧
        c ∈ (connect_ssh st host username password port? freePort
            configPorts net).2.closed ∧
        (connect_ssh st host username password port? freePort configPorts
            net).2.proxies.Sublist st.proxies) := by
  constructor
  · intro pi hpi
    cases net with
    | connectFail cause => simp [connect_ssh] at hpi
    | forwardFail i c cause => simp [connect_ssh] at hpi
    | verifyFail i c => simp [connect_ssh] at hpi
    | success i c =>
      rw [connect_ssh] at hpi
      have hpi' : ProxyInfo.mk (port?.getD freePort) c = pi :=
        Except.ok.inj hpi
      refine ⟨⟨i, c, rfl, by rw [← hpi']⟩, ?_⟩
      rw [connect_ssh, ← hpi']
  · intro i c hnet
    subst hnet
    refine ⟨⟨_, rfl, rfl, rfl⟩, ?_, ?_⟩
    · rw [connect_ssh]
      exact List.mem_append_right _ (List.mem_singleton.mpr rfl)
    · rw [connect_ssh]
      exact killBestEffort_proxies_sublist st (port?.getD freePort)

/-- Witness for C4: a failing verification round-trip yields an `SSHError`
whose message names the forwarded-proxy failure, closes connection 7, and
leaves the empty registry empty. -/
theorem connect_ssh_spec_witness :
    (∃ e, (connect_ssh ⟨[], fun _ => none, []⟩ "h" "u" "p" (some 1080) 0
        [2222] (.verifyFail 0 7)).1 = .error e ∧
      e.cls = PyExcClass.SSHError ∧
      e.msg = "Cannot connect to forwarded proxy.") ∧
    7 ∈ (connect_ssh ⟨[], fun _ => none, []⟩ "h" "u" "p" (some 1080) 0
        [2222] (.verifyFail 0 7)).2.closed ∧
    (connect_ssh ⟨[], fun _ => none, []⟩ "h" "u" "p" (some 1080) 0
        [2222] (.verifyFail 0 7)).2.proxies.Sublist [] :=
  (connect_ssh_spec ⟨[], fun _ => none, []⟩ "h" "u" "p" (some 1080) 0
      [2222] (.verifyFail 0 7)).2 0 7 rfl

/-! ## C5: remote-port candidates and the winning-port cache -/

/-- C5: the candidate remote-SSH-port list is the cached entry for exactly
this `(host, username, password)` triple when present (the cache only holds
non-empty singletons), else the configured ports when non-empty, else
`[22]`; the port attempted and won is always drawn from that list; on
success, the winner is cached under the triple's key, so the candidate
list of any subsequent `connect_ssh` with the same triple is exactly the
singleton of the previous winner. -/
theorem connect_ssh_candidate_cache_spec (st : TunnelSt)
    (host username password : String) (port? : Option Nat) (freePort : Nat)
    (configPorts : List Nat) (i c : Nat) :
    (∀ ps, st.cache (cacheKey host username password) = some ps →
        ps ≠ [] →
        candidatePorts st.cache (cacheKey host username password)
          configPorts = ps) ∧
    (st.cache (cacheKey host username password) = none →
        candidatePorts st.cache (cacheKey host username password)
          configPorts =
          if configPorts.isEmpty then [22] else configPorts) ∧
    (winnerPort (candidatePorts st.cache (cacheKey host username password)
          configPorts) i ∈
        candidatePorts st.cache (cacheKey host username password)
          configPorts) ∧
    (∀ configPorts2,
      candidatePorts
        (connect_ssh st host username password port? freePort configPorts
            (.success i c)).2.cache
        (cacheKey host username password) configPorts2 =
      [winnerPort (candidatePorts st.cache (cacheKey host username password)
          configPorts) i]) := by
  refine ⟨?_, ?_, ?_, ?_⟩
  · intro ps hps hne
    simp [candidatePorts, hps, List.isEmpty_iff, hne]
  · intro hnone
    rw [candidatePorts, hnone]
  · exact winnerPort_mem i (candidatePorts_ne_nil _ _ _)
  · intro configPorts2
    have hcache :
        (connect_ssh st host username password port? freePort configPorts
            (.success i c)).2.cache =
          cacheSet (killBestEffort st (port?.getD freePort)).cache
            (cacheKey host username password)
            [winnerPort (candidatePorts
                (killBestEffort st (port?.getD freePort)).cache
                (cacheKey host username password) configPorts) i] := by
      rw [connect_ssh]
    rw [hcache, killBestEffort_cache, candidatePorts, cacheSet_self]
    simp

/-- Witness for C5: with an empty cache and configured candidates
`[2222, 22]`, a successful connection on the first responder caches it, and
a subsequent call with the same triple gets exactly that winner as its only
candidate. -/
theorem connect_ssh_candidate_cache_spec_witness :
    (candidatePorts (fun _ => none) (cacheKey "10.0.0.5" "a" "b")
        [2222, 22] = if ([2222, 22] : List Nat).isEmpty then [22]
          else [2222, 22]) ∧
    (∀ configPorts2,
      candidatePorts
        (connect_ssh ⟨[], fun _ => none, []⟩ "10.0.0.5" "a" "b" (some 9000)
            0 [2222, 22] (.success 0 5)).2.cache
        (cacheKey "10.0.0.5" "a" "b") configPorts2 =
      [winnerPort (candidatePorts (fun _ => none)
          (cacheKey "10.0.0.5" "a" "b") [2222, 22]) 0]) :=
  ⟨(connect_ssh_candidate_cache_spec ⟨[], fun _ => none, []⟩ "10.0.0.5" "a"
      "b" (some 9000) 0 [2222, 22] 0 5).2.1 rfl,
   (connect_ssh_candidate_cache_spec ⟨[], fun _ => none, []⟩ "10.0.0.5" "a"
      "b" (some 9000) 0 [2222, 22] 0 5).2.2.2⟩

/-! ## C10: `verify_ssh` leaves the registry entry behind -/

/-- C10: `verify_ssh` never removes registry entries beyond what its inner
`connect_ssh` does — the final registry equals the one `connect_ssh`
produced; and whenever it returns `True`, the `ProxyInfo` that
`connect_ssh` appended is still registered, even though its connection has
been closed. -/
theorem verify_ssh_frame (st : TunnelSt) (host username password : String)
    (freePort : Nat) (configPorts : List Nat) (net : NetOutcome) :
    ((verify_ssh st host username password freePort configPorts
        net).2.proxies =
      (connect_ssh st host username password none freePort configPorts
        net).2.proxies) ∧
    ((verify_ssh st host username password freePort configPorts net).1 =
        true →
      ∃ pi, (connect_ssh st host username password none freePort
          configPorts net).1 = .ok pi ∧
        pi ∈ (verify_ssh st host username password freePort configPorts
          net).2.proxies ∧
        pi.connId ∈ (verify_ssh st host username password freePort
          configPorts net).2.closed) := by
  cases net with
  | connectFail cause => exact ⟨rfl, by intro h; cases h⟩
  | forwardFail i c cause => exact ⟨rfl, by intro h; cases h⟩
  | verifyFail i c => exact ⟨rfl, by intro h; cases h⟩
  | success i c =>
    refine ⟨rfl, ?_⟩
    intro _
    refine ⟨⟨freePort, c⟩, rfl, ?_, ?_⟩
    · rw [verify_ssh, connect_ssh]
      exact List.mem_append_right _ (List.mem_singleton.mpr rfl)
    · rw [verify_ssh]
      exact List.mem_append_right _ (List.mem_singleton.mpr rfl)

/-- Witness for C10: a successful verification leaves the appended handle
in the registry with its connection closed. -/
theorem verify_ssh_frame_witness :
    ∃ pi, (connect_ssh ⟨[], fun _ => none, []⟩ "h" "u" "p" none 4000 []
        (.success 0 9)).1 = .ok pi ∧
      pi ∈ (verify_ssh ⟨[], fun _ => none, []⟩ "h" "u" "p" 4000 []
        (.success 0 9)).2.proxies ∧
      pi.connId ∈ (verify_ssh ⟨[], fun _ => none, []⟩ "h" "u" "p" 4000 []
        (.success 0 9)).2.closed :=
  (verify_ssh_frame ⟨[], fun _ => none, []⟩ "h" "u" "p" 4000 []
      (.success 0 9)).2 rfl

end SshManager
